import Mathlib

/-!
Verification of the ChrisApp plugin base class (chrisapp/base.py):
parameter registration and validation, descriptor building, and the
input/output metadata round trips.  Python values, keyword arguments and
the registration routine are embedded shallowly; argparse (the external
argument-parsing collaborator) is modelled by its documented behaviour
where the claims need it.
-/

namespace ChrisApp

/-- A Python value as it occurs in this program: defaults, parsed option
values and JSON scalars.  `vNone` is Python's `None`. -/
inductive PyVal where
  | vNone : PyVal
  | vBool (b : Bool) : PyVal
  | vStr (s : String) : PyVal
  | vInt (n : Int) : PyVal
  deriving Repr, DecidableEq

/-- Whether one character list is a prefix of another (by character
equality). -/
def charsLead : List Char → List Char → Bool
  | [], _ => true
  | _ :: _, [] => false
  | a :: as, b :: bs => if a = b then charsLead as bs else false

/-- Python's `s.startswith(pre)`. -/
def strStartsWith (s pre : String) : Bool :=
  charsLead pre.data s.data

/-- Python's `s.endswith(suf)`. -/
def strEndsWith (s suf : String) : Bool :=
  charsLead suf.data.reverse s.data.reverse

/-- Python's `s.split(',')`: split on every comma; the empty string
splits to `[""]`. -/
def splitCommaAux : List Char → List Char → List String
  | [], cur => [⟨cur.reverse⟩]
  | c :: cs, cur =>
    if c = ',' then ⟨cur.reverse⟩ :: splitCommaAux cs []
    else splitCommaAux cs (c :: cur)

/-- Python's `string.split(',')`. -/
def pySplitComma (s : String) : List String :=
  splitCommaAux s.data []

/-- Python truthiness (`if default:`) for the values in `PyVal`. -/
def PyVal.truthy : PyVal → Bool
  | .vNone => false
  | .vBool b => b
  | .vStr s => s ≠ ""
  | .vInt n => n ≠ 0

/-- The `type` keyword passed to `add_argument`: the supported callables
`str`, `int`, `float`, `bool`, `ChrisApp.path`, `ChrisApp.unextpath`,
or any other Python callable (carried by its `__name__`). -/
inductive PyType where
  | str | int | float | bool | path | unextpath
  | other (nm : String)
  deriving Repr, DecidableEq

/-- `param_type.__name__`, used for the JSON-serializable registry entry. -/
def PyType.name : PyType → String
  | .str => "str"
  | .int => "int"
  | .float => "float"
  | .bool => "bool"
  | .path => "path"
  | .unextpath => "unextpath"
  | .other nm => nm

/-- The keyword arguments of a `ChrisApp.add_argument` call.  A field of
value `none` means the key is absent from `kwargs`; `default = some .vNone`
means the key is present and bound to Python `None`. -/
structure Kwargs where
  dest : Option String := none
  type : Option PyType := none
  optional : Option Bool := none
  required : Option Bool := none
  default : Option PyVal := none
  action : Option String := none
  help : Option String := none
  ui_exposed : Option Bool := none
  deriving Repr, DecidableEq

/-- The exceptions `validate_argument_options` / `add_argument` can raise,
one constructor per `raise` site (spec taxonomy in parentheses):
`missingOption` (MissingOptionError, a `KeyError`),
`contradictRequired` (a `KeyError`),
`unsupportedType` (UnsupportedTypeError, a `ValueError`),
`incompatibleOptionalType` (IncompatibleOptionalTypeError, a `ValueError`),
`missingDefault` / `noneDefault` (InvalidDefaultError, `KeyError`/`ValueError`),
`invisibleMandatory` (InvisibleMandatoryError, a `ValueError`),
`conflictingOption` (argparse's `ArgumentError` for a reused option string). -/
inductive RegError where
  | missingOption (key : String)
  | contradictRequired (name : String)
  | unsupportedType (tyName : String)
  | incompatibleOptionalType
  | missingDefault (name : String)
  | noneDefault (name : String)
  | invisibleMandatory (name : String)
  | conflictingOption (flag : String)
  deriving Repr, DecidableEq

/-- Whether an error is of the spec's InvalidDefaultError class. -/
def RegError.isInvalidDefault : RegError → Bool
  | .missingDefault _ => true
  | .noneDefault _ => true
  | _ => false

/-- `ChrisApp.validate_argument_options`: validates the kwargs of a
registration, in the source's check order, returning the extracted
`(dest, optional, type)` triple on success. -/
def validate_argument_options (kw : Kwargs) :
    Except RegError (String × Bool × PyType) :=
  -- make sure required parameter options are defined
  match kw.dest with
  | none => .error (.missingOption "dest")
  | some name =>
    match kw.optional with
    | none => .error (.missingOption "optional")
    | some optional =>
      match kw.type with
      | none => .error (.missingOption "type")
      | some param_type =>
        -- 'optional' (our custom flag) and 'required' (argparse) should agree
        if kw.required = some optional then
          .error (.contradictRequired name)
        else if param_type ∉ [PyType.str, PyType.int, PyType.float,
                              PyType.bool, PyType.path, PyType.unextpath] then
          .error (.unsupportedType param_type.name)
        else if optional ∧
            (param_type = PyType.path ∨ param_type = PyType.unextpath) then
          .error .incompatibleOptionalType
        else if optional ∧ kw.default = none then
          .error (.missingDefault name)
        else if optional ∧ kw.default = some PyVal.vNone then
          .error (.noneDefault name)
        else if ¬(kw.ui_exposed.getD true) ∧ ¬optional then
          .error (.invisibleMandatory name)
        else .ok (name, optional, param_type)

/-- A registry entry: the dict appended to `self._parameters`.  The type is
stored by `__name__` to enable JSON serialization. -/
structure Param where
  name : String
  type : String
  optional : Bool
  flag : String
  short_flag : String
  action : String
  help : String
  default : PyVal
  ui_exposed : Bool
  deriving Repr, DecidableEq

/-- The configuration handed to the underlying `ArgumentParser.add_argument`
after `ChrisApp.add_argument` rewrites the kwargs: option strings,
destination, action, `required`, and the `type`/`default` keywords
(deleted for boolean parameters). -/
structure ArgparseArg where
  optionStrings : List String
  dest : String
  action : String
  required : Bool
  type : Option PyType
  default : Option PyVal
  deriving Repr, DecidableEq

/-- The long flag `add_argument` derives from its positional arguments:
`args[0]`, unless a second flag is given and `args[0]` is the long one. -/
def flagOf (arg0 : String) (argRest : List String) : String :=
  match argRest with
  | [] => arg0
  | a1 :: _ => if strStartsWith arg0 "--" then arg0 else a1

/-- The short flag `add_argument` derives from its positional arguments. -/
def shortFlagOf (arg0 : String) (argRest : List String) : String :=
  match argRest with
  | [] => arg0
  | a1 :: _ => if strStartsWith arg0 "--" then a1 else arg0

/-- `ChrisApp.add_argument`: validates the options, derives `required`,
`default`, `help`, `ui_exposed` and the argparse `action`, appends the
parameter record to the registry and passes the rewritten keywords to the
underlying parser.  `args` is the positional flag list (`arg0 :: argRest`);
`usedFlags` are the option strings already registered with the underlying
parser, which raises on a conflicting option string. -/
def add_argument (params : List Param) (usedFlags : List String)
    (arg0 : String) (argRest : List String) (kw : Kwargs) :
    Except RegError (List Param × ArgparseArg) :=
  if kw.action = some "help" then
    -- bypass: delegated to the superclass untouched, nothing registered
    .ok (params, { optionStrings := arg0 :: argRest, dest := kw.dest.getD "",
                   action := "help", required := false, type := kw.type,
                   default := kw.default })
  else
    match validate_argument_options kw with
    | .error e => .error e
    | .ok (name, optional, param_type) =>
      -- set required, default, ui_exposed and help values
      let required := match kw.required with
        | some r => r
        | none => !optional
      let default := kw.default.getD PyVal.vNone
      let param_help := kw.help.getD ""
      let ui_exposed := kw.ui_exposed.getD true
      -- set the ArgumentParser's action
      let action := if param_type = PyType.bool then
          (if default.truthy then "store_false" else "store_true")
        else "store"
      -- 'default' and 'type' options not allowed for boolean actions
      let kwType := if param_type = PyType.bool then none else some param_type
      let kwDefault := if param_type = PyType.bool then none else kw.default
      -- set the flag
      let flag := flagOf arg0 argRest
      let short_flag := shortFlagOf arg0 argRest
      -- store the parameter internally
      let param : Param := { name := name, type := param_type.name,
                             optional := optional, flag := flag,
                             short_flag := short_flag, action := action,
                             help := param_help, default := default,
                             ui_exposed := ui_exposed }
      let params' := params ++ [param]
      -- the underlying parser rejects a reused option string
      if (arg0 :: argRest).any (fun a => usedFlags.contains a) then
        .error (.conflictingOption arg0)
      else
        .ok (params', { optionStrings := arg0 :: argRest, dest := name,
                        action := action, required := required,
                        type := kwType, default := kwDefault })

/-- Python's `str.strip()` whitespace set. -/
def isPySpace (c : Char) : Bool :=
  c = ' ' ∨ c = '\t' ∨ c = '\n' ∨ c = '\x0d' ∨ c = '\x0b' ∨ c = '\x0c'

/-- Python's `s.strip()`: remove leading and trailing whitespace. -/
def pyStrip (s : String) : String :=
  ⟨((s.data.dropWhile isPySpace).reverse.dropWhile isPySpace).reverse⟩

/-- The error raised by a `type` callable at parse time; `ChrisApp.path`
raises `argparse.ArgumentTypeError("Path %s not found!")` — the spec's
PathNotFoundError class. -/
inductive ArgTypeError where
  | pathNotFound (p : String)
  deriving Repr, DecidableEq

/-- `ChrisApp.path`, applied by the parser to a comma-separated path list.
The file system is abstracted by the existence predicate `exi`. -/
def path (exi : String → Bool) (string : String) :
    Except ArgTypeError String :=
  let path_list := (pySplitComma string).map pyStrip
  match path_list.find? (fun p => !exi p) with
  | some p => throw (.pathNotFound p)
  | none => pure (String.intercalate "," path_list)

/-- `ChrisApp.unextpath`: the same comma-separated normalization with no
existence check. -/
def unextpath (string : String) : String :=
  String.intercalate "," ((pySplitComma string).map pyStrip)

/-- Modelled from the spec: the normalization §4.1 describes for the two
path types — "each sub-path is stripped of surrounding whitespace and
rejoined with commas" — written from the spec's words, to be compared with
the source's `path`/`unextpath`. -/
def specPathNormalize (string : String) : String :=
  String.intercalate "," ((pySplitComma string).map pyStrip)

/-- The class-level configuration of a concrete plugin: identity fields,
resource limits, the plugin `TYPE` tag and `OUTPUT_META_DICT` (modelled as
a flat JSON object). -/
structure AppCfg where
  TYPE : String := "ds"
  ICON : String := ""
  AUTHORS : String := "FNNDSC (dev@babyMRI.org)"
  TITLE : String := ""
  CATEGORY : String := ""
  DESCRIPTION : String := ""
  DOCUMENTATION : String := ""
  LICENSE : String := ""
  VERSION : String := ""
  SELFPATH : String := ""
  SELFEXEC : String := ""
  EXECSHELL : String := ""
  MAX_NUMBER_OF_WORKERS : Int := 1
  MIN_NUMBER_OF_WORKERS : Int := 1
  MAX_CPU_LIMIT : String := ""
  MIN_CPU_LIMIT : String := ""
  MAX_MEMORY_LIMIT : String := ""
  MIN_MEMORY_LIMIT : String := ""
  MIN_GPU_LIMIT : Int := 0
  MAX_GPU_LIMIT : Int := 0
  OUTPUT_META_DICT : List (String × PyVal) := []
  deriving Repr, DecidableEq

/-- The JSON representation built by `get_json_representation`: the
identity, execution and resource fields plus the parameter list. -/
structure Descriptor where
  type : String
  parameters : List Param
  icon : String
  authors : String
  title : String
  category : String
  description : String
  documentation : String
  license : String
  version : String
  selfpath : String
  selfexec : String
  execshell : String
  max_number_of_workers : Int
  min_number_of_workers : Int
  max_memory_limit : String
  min_memory_limit : String
  max_cpu_limit : String
  min_cpu_limit : String
  max_gpu_limit : Int
  min_gpu_limit : Int
  deriving Repr, DecidableEq

/-- `ChrisApp.get_json_representation`: assembles the descriptor from the
class attributes and the current parameter registry. -/
def get_json_representation (cfg : AppCfg) (parameters : List Param) :
    Descriptor :=
  { type := cfg.TYPE,
    parameters := parameters,
    icon := cfg.ICON,
    authors := cfg.AUTHORS,
    title := cfg.TITLE,
    category := cfg.CATEGORY,
    description := cfg.DESCRIPTION,
    documentation := cfg.DOCUMENTATION,
    license := cfg.LICENSE,
    version := cfg.VERSION,
    selfpath := cfg.SELFPATH,
    selfexec := cfg.SELFEXEC,
    execshell := cfg.EXECSHELL,
    max_number_of_workers := cfg.MAX_NUMBER_OF_WORKERS,
    min_number_of_workers := cfg.MIN_NUMBER_OF_WORKERS,
    max_memory_limit := cfg.MAX_MEMORY_LIMIT,
    min_memory_limit := cfg.MIN_MEMORY_LIMIT,
    max_cpu_limit := cfg.MAX_CPU_LIMIT,
    min_cpu_limit := cfg.MIN_CPU_LIMIT,
    max_gpu_limit := cfg.MAX_GPU_LIMIT,
    min_gpu_limit := cfg.MIN_GPU_LIMIT }

/-- One plugin call to `self.add_argument` during `define_parameters`:
the flag arguments and the keyword arguments. -/
structure RegCall where
  arg0 : String
  argRest : List String := []
  kw : Kwargs
  deriving Repr, DecidableEq

/-- The option strings installed on the underlying parser by `__init__`
before any `ChrisApp.add_argument` call (including argparse's automatic
`-h` and `--help`). -/
def builtinFlags : List String :=
  ["-h", "--help", "--json", "--savejson", "--inputmeta", "--saveinputmeta",
   "--saveoutputmeta", "--version", "--meta", "-v", "--verbosity", "--man"]

/-- Run a sequence of `add_argument` calls left to right, threading the
registry and the set of used option strings; the first raised exception
aborts the sequence (as it aborts `__init__`). -/
def runRegCalls (start : List Param × List String) :
    List RegCall → Except RegError (List Param × List String)
  | [] => pure start
  | c :: cs =>
    match add_argument start.1 start.2 c.arg0 c.argRest c.kw with
    | .error e => throw e
    | .ok (ps', _) => runRegCalls (ps', start.2 ++ (c.arg0 :: c.argRest)) cs

/-- The `self.add_argument('--plugininstances', ...)` call of `__init__`. -/
def tsPluginInstancesCall : RegCall :=
  { arg0 := "--plugininstances",
    kw := { dest := some "plugininstances", type := some .str,
            optional := some true, default := some (.vStr ""),
            help := some ("string representing a comma-separated list of " ++
                          "plugin instance ids") } }

/-- The `self.add_argument('-f', '--filter', ...)` call of `__init__`. -/
def tsFilterCall : RegCall :=
  { arg0 := "-f", argRest := ["--filter"],
    kw := { dest := some "filter", type := some .str,
            optional := some true, default := some (.vStr ""),
            help := some ("regular expression to filter the plugin " ++
                          "instances' output path") } }

/-- The `self.add_argument('-e', '--extractpaths', ...)` call of
`__init__`. -/
def tsExtractPathsCall : RegCall :=
  { arg0 := "-e", argRest := ["--extractpaths"],
    kw := { dest := some "extractpaths", type := some .bool,
            optional := some true, default := some (.vBool false),
            help := some ("if set then the matched paths from the plugin " ++
                          "instances' output path are sent to the remote " ++
                          "compute") } }

/-- `ChrisApp.__init__` restricted to what it does to `self._parameters`:
pre-register the three topological ('ts') parameters when `TYPE == 'ts'`,
then run the plugin's `define_parameters` (its `self.add_argument` calls).
Returns the final registry. -/
def initParameters (cfg : AppCfg) (defineParameters : List RegCall) :
    Except RegError (List Param) :=
  match (if cfg.TYPE = "ts" then
           runRegCalls ([], builtinFlags)
             [tsPluginInstancesCall, tsFilterCall, tsExtractPathsCall]
         else .ok ([], builtinFlags)) with
  | .error e => .error e
  | .ok st =>
    match runRegCalls st defineParameters with
    | .error e => .error e
    | .ok st' => .ok st'.1

/-- Parse-time failures of the underlying parser: `usage` is argparse's
usage-message-and-exit-2 path, `typeError` is CPython's `TypeError` when a
non-string truthy object is scanned as an argument, `earlyExit` is the
`parser.exit()` of the custom eager actions, `fileNotFound` an `IOError`
while reading an options file. -/
inductive ParseErr where
  | usage
  | typeError
  | earlyExit
  | fileNotFound (p : String)
  deriving Repr, DecidableEq

/-- The `type` conversion attached to an argparse action. -/
inductive Conv where
  | noConv | convStr | convInt | convFloat | convPath | convUnext
  deriving Repr, DecidableEq

/-- The conversion for a registered `type` keyword (`none` after
`add_argument` deleted it for booleans). -/
def convOfType : Option PyType → Conv
  | none => .noConv
  | some .str => .convStr
  | some .int => .convInt
  | some .float => .convFloat
  | some .path => .convPath
  | some .unextpath => .convUnext
  | some .bool => .noConv
  | some (.other _) => .noConv

/-- Python's `str()` of the values in `PyVal`. -/
def pyStrOf : PyVal → String
  | .vStr s => s
  | .vBool true => "True"
  | .vBool false => "False"
  | .vNone => "None"
  | .vInt n => toString n

/-- Python's `int(s)` on a decimal literal with optional sign, `none`
where Python raises `ValueError`. -/
def pyToInt? (s : String) : Option Int :=
  let core : List Char → Option Nat := fun cs =>
    if cs = [] then none
    else cs.foldl
      (fun acc c =>
        match acc with
        | none => none
        | some n =>
          if '0' ≤ c ∧ c ≤ '9' then some (n * 10 + (c.toNat - '0'.toNat))
          else none)
      (some 0)
  match s.data with
  | '-' :: rest => (core rest).map (fun n => -(n : Int))
  | cs => (core cs).map (fun n => (n : Int))

/-- Apply a `type` conversion to an argument value, as argparse does when
storing it; a failing conversion becomes the usage error (exit 2).
(`convFloat` keeps the value unconverted: no claim parses a float.) -/
def applyConv (exi : String → Bool) : Conv → PyVal → Except ParseErr PyVal
  | .noConv, v => pure v
  | .convStr, v => pure (.vStr (pyStrOf v))
  | .convInt, v =>
    match pyToInt? (pyStrOf v) with
    | some n => pure (.vInt n)
    | none => throw .usage
  | .convFloat, v => pure v
  | .convPath, v =>
    match path exi (pyStrOf v) with
    | .ok s => pure (.vStr s)
    | .error _ => throw .usage
  | .convUnext, v => pure (.vStr (unextpath (pyStrOf v)))

/-- One action of the underlying parser: option strings (empty for a
positional), destination, action kind, the default installed into the
namespace before parsing, and the `type` conversion.  Modelled from the
documented argparse behaviour the spec treats as an external capability. -/
structure ActionSpec where
  optionStrings : List String := []
  dest : String
  action : String := "store"
  default : PyVal := .vNone
  conv : Conv := .noConv
  deriving Repr, DecidableEq

/-- The parser action produced by a successful `ChrisApp.add_argument`
call: a `store_true`/`store_false` action carries argparse's implicit
default (`False`/`True` respectively — `add_argument` deleted the
`default` keyword for booleans), a `store` action the declared default. -/
def ActionSpec.ofArgparseArg (pa : ArgparseArg) : ActionSpec :=
  { optionStrings := pa.optionStrings, dest := pa.dest, action := pa.action,
    default := match pa.action with
      | "store_true" => .vBool false
      | "store_false" => .vBool true
      | _ => pa.default.getD .vNone,
    conv := convOfType pa.type }

/-- The built-in actions `__init__` installs, in registration order: the
eager-exit flags, the meta-data flags, verbosity, the man flag, then the
positional `inputdir` (for 'ds' plugins only) and `outputdir`. -/
def builtinActions (tp : String) : List ActionSpec :=
  [ { optionStrings := ["--json"], dest := "json", action := "exit",
      default := .vBool false },
    { optionStrings := ["--savejson"], dest := "savejson", action := "exitStore",
      conv := .convPath },
    { optionStrings := ["--inputmeta"], dest := "inputmeta", action := "store" },
    { optionStrings := ["--saveinputmeta"], dest := "saveinputmeta",
      action := "store_true", default := .vBool false },
    { optionStrings := ["--saveoutputmeta"], dest := "saveoutputmeta",
      action := "store_true", default := .vBool false },
    { optionStrings := ["--version"], dest := "version", action := "exit",
      default := .vBool false },
    { optionStrings := ["--meta"], dest := "meta", action := "exit",
      default := .vBool false },
    { optionStrings := ["-v", "--verbosity"], dest := "verbosity",
      action := "store", default := .vStr "0", conv := .convStr },
    { optionStrings := ["--man"], dest := "man", action := "exit",
      default := .vBool false } ]
  ++ (if tp = "ds" then
        [{ optionStrings := [], dest := "inputdir", action := "store",
           conv := .convStr }]
      else [])
  ++ [{ optionStrings := [], dest := "outputdir", action := "store",
        conv := .convStr }]

/-- The parsed options namespace: an association list in attribute
insertion order, which is action registration order (so it is also the
key order of `vars(options)` when saved as JSON). -/
abbrev Namespace := List (String × PyVal)

/-- `setattr(namespace, d, v)` for an existing attribute. -/
def nsSet (ns : Namespace) (d : String) (v : PyVal) : Namespace :=
  ns.map fun kv => if kv.1 = d then (d, v) else kv

/-- Read a string-valued attribute of the namespace (the positional
directories in the claims are always strings). -/
def nsGetStr (ns : Namespace) (k : String) : String :=
  match ns.lookup k with
  | some (.vStr s) => s
  | _ => ""

/-- argparse's classification of one argument token: a string is
option-like iff it starts with the prefix character; a falsy non-string
(`False`, `None`, `0`) compares as not-option-like, while a truthy
non-string raises `TypeError` when subscripted (`arg_string[0]`). -/
def classifyToken : PyVal → Except ParseErr Bool
  | .vStr s => pure (strStartsWith s "-")
  | .vBool b => if b then throw .typeError else pure false
  | .vInt n => if n = 0 then pure false else throw .typeError
  | .vNone => pure false

/-- The token-consumption loop of `parse_args`: option-like tokens select
their action (`store` consumes the next token through its `type`; the
toggle actions consume nothing; the custom actions exit), other tokens are
collected as positional values. -/
def parseTokens (acts : List ActionSpec) (exi : String → Bool) :
    List PyVal → Namespace → List PyVal →
    Except ParseErr (Namespace × List PyVal)
  | [], ns, pos => pure (ns, pos)
  | t :: rest, ns, pos =>
    match classifyToken t with
    | .error e => throw e
    | .ok false => parseTokens acts exi rest ns (pos ++ [t])
    | .ok true =>
      match acts.find? (fun a => a.optionStrings.contains (pyStrOf t)) with
      | none => throw .usage
      | some a =>
        if a.action = "store_true" then
          parseTokens acts exi rest (nsSet ns a.dest (.vBool true)) pos
        else if a.action = "store_false" then
          parseTokens acts exi rest (nsSet ns a.dest (.vBool false)) pos
        else if a.action = "store" then
          match rest with
          | [] => throw .usage
          | v :: rest' =>
            match applyConv exi a.conv v with
            | .error e => throw e
            | .ok val => parseTokens acts exi rest' (nsSet ns a.dest val) pos
        else throw .earlyExit

/-- `parse_args`, modelled from argparse's documented behaviour: install
every action's default into a fresh namespace in registration order, scan
all tokens (a malformed token raises before anything is consumed), consume
options, then assign the collected positional values to the positional
actions in declaration order — a count mismatch is the usage error. -/
def parse_args (acts : List ActionSpec) (exi : String → Bool)
    (tokens : List PyVal) : Except ParseErr Namespace :=
  match tokens.mapM classifyToken with
  | .error e => throw e
  | .ok _ =>
    let ns0 : Namespace := acts.map (fun a => (a.dest, a.default))
    match parseTokens acts exi tokens ns0 [] with
    | .error e => throw e
    | .ok (ns, pos) =>
      let posActs := acts.filter (fun a => a.optionStrings.isEmpty)
      if pos.length = posActs.length then
        (posActs.zip pos).foldlM
          (fun ns' ap =>
            match applyConv exi ap.1.conv ap.2 with
            | .error e => throw e
            | .ok v => pure (nsSet ns' ap.1.dest v))
          ns
      else throw .usage

/-- The file system, as far as this program touches it: a map from file
path to the JSON object stored in the file (most recent write first).
JSON (de)serialization of these flat objects is lossless, so a file holds
the object itself. -/
abbrev FS := List (String × List (String × PyVal))

/-- `os.path.join` for the fixed relative file names used here. -/
def os_path_join (a b : String) : String :=
  if a = "" then b else if strEndsWith a "/" then a ++ b else a ++ "/" ++ b

/-- A failed `open` while reading. -/
inductive IOErr where
  | fileNotFound (p : String)
  deriving Repr, DecidableEq

/-- `json.dump` of a flat JSON object to a file opened with 'w'
(truncating any previous content). -/
def writeJsonFile (fsys : FS) (p : String) (obj : List (String × PyVal)) :
    FS :=
  (p, obj) :: fsys

/-- `json.load` from an opened file. -/
def readJsonFile (fsys : FS) (p : String) :
    Except IOErr (List (String × PyVal)) :=
  match fsys.lookup p with
  | some obj => pure obj
  | none => throw (.fileNotFound p)

/-- `ChrisApp.save_input_meta`: dump `vars(self.options)` to
`<outputdir>/input.meta.json`. -/
def save_input_meta (ns : Namespace) (fsys : FS) : FS :=
  writeJsonFile fsys (os_path_join (nsGetStr ns "outputdir") "input.meta.json")
    ns

/-- The flattening loop of `get_options_from_file`: for each key of the
loaded JSON object, append the key itself and then its value. -/
def flattenOptions (options_dict : List (String × PyVal)) : List PyVal :=
  options_dict.foldr (fun kv acc => .vStr kv.1 :: kv.2 :: acc) []

/-- `ChrisApp.get_options_from_file`: load the JSON file, flatten its
key/value pairs into an argument list and re-run `parse_args` on it. -/
def get_options_from_file (acts : List ActionSpec) (exi : String → Bool)
    (fsys : FS) (file_path : String) : Except ParseErr Namespace :=
  match readJsonFile fsys file_path with
  | .error (.fileNotFound p) => throw (.fileNotFound p)
  | .ok options_dict => parse_args acts exi (flattenOptions options_dict)

/-- `ChrisApp.save_output_meta`: dump `OUTPUT_META_DICT` to
`<outputdir>/output.meta.json`. -/
def save_output_meta (cfg : AppCfg) (ns : Namespace) (fsys : FS) : FS :=
  writeJsonFile fsys
    (os_path_join (nsGetStr ns "outputdir") "output.meta.json")
    cfg.OUTPUT_META_DICT

/-- `ChrisApp.load_output_meta`: load `<inputdir>/output.meta.json`. -/
def load_output_meta (ns : Namespace) (fsys : FS) :
    Except IOErr (List (String × PyVal)) :=
  readJsonFile fsys (os_path_join (nsGetStr ns "inputdir") "output.meta.json")

/-- Modelled from the spec / argparse documentation: the value a
`store_true`/`store_false` toggle yields — the stored constant when the
flag is supplied, the action's implicit default when it is omitted. -/
def argparseToggleValue (action : String) (present : Bool) : Bool :=
  if present then action = "store_true" else action = "store_false"

/-- An empty file system. -/
def emptyFs : FS := []

/-- An existence predicate under which every path exists. -/
def allPathsExist : String → Bool := fun _ => true

/-- The parser configuration of a bare 'ds' plugin whose
`define_parameters` registers nothing. -/
def dsActions : List ActionSpec := builtinActions "ds"

/-- The argument vector of the replay scenario's original run:
`['/in', '/out', '--saveinputmeta']`. -/
def replayArgv : List PyVal :=
  [.vStr "/in", .vStr "/out", .vStr "--saveinputmeta"]

/-- The options the original run of the replay scenario parses to. -/
def replayOptions : Namespace :=
  [("json", .vBool false), ("savejson", .vNone), ("inputmeta", .vNone),
   ("saveinputmeta", .vBool true), ("saveoutputmeta", .vBool false),
   ("version", .vBool false), ("meta", .vBool false),
   ("verbosity", .vStr "0"), ("man", .vBool false),
   ("inputdir", .vStr "/in"), ("outputdir", .vStr "/out")]

/-- C1.  The input-meta replay round trip, evaluated on a bare 'ds' plugin:
the original run parses `['/in', '/out', '--saveinputmeta']` and
`save_input_meta` records its options, but `get_options_from_file` on the
recorded file does not reproduce them — it flattens each saved key as a
bare token (no `--` prefix) followed by its raw JSON value, and re-parsing
that vector fails (CPython's argparse raises `TypeError` scanning the
boolean `True`; the bare-name tokens could not rebind the options even
otherwise).  This refutes the idempotent-replay property. -/
theorem inputmeta_replay_fails :
    parse_args dsActions allPathsExist replayArgv = Except.ok replayOptions ∧
    get_options_from_file dsActions allPathsExist
        (save_input_meta replayOptions emptyFs)
        (os_path_join "/out" "input.meta.json") =
      Except.error ParseErr.typeError ∧
    get_options_from_file dsActions allPathsExist
        (save_input_meta replayOptions emptyFs)
        (os_path_join "/out" "input.meta.json") ≠
      Except.ok replayOptions :=
  ⟨rfl, rfl, by
    intro h
    have h2 : get_options_from_file dsActions allPathsExist
        (save_input_meta replayOptions emptyFs)
        (os_path_join "/out" "input.meta.json") =
        Except.error ParseErr.typeError := rfl
    rw [h] at h2
    exact Except.noConfusion h2⟩

/-- C4.  At argument-parse time, `unextpath` strips each comma-separated
sub-path and rejoins with commas with no existence check; `path` returns
the same normalized string when every sub-path exists and raises the
PathNotFoundError-class error when one does not. -/
theorem path_types_parse_time (exi : String → Bool) (s : String) :
    unextpath s = specPathNormalize s ∧
    ((∀ p ∈ (pySplitComma s).map pyStrip, exi p = true) →
      path exi s = Except.ok (specPathNormalize s)) ∧
    (∀ q, ((pySplitComma s).map pyStrip).find? (fun p => !exi p) = some q →
      path exi s = Except.error (ArgTypeError.pathNotFound q) ∧
        q ∈ (pySplitComma s).map pyStrip ∧ exi q = false) := by
  refine ⟨rfl, ?_, ?_⟩
  · intro h
    have hfind : ((pySplitComma s).map pyStrip).find? (fun p => !exi p)
        = none := by
      rw [List.find?_eq_none]
      intro x hx
      simp [h x hx]
    simp only [path, hfind, specPathNormalize]
    rfl
  · intro q hq
    refine ⟨by simp only [path, hq]; rfl, List.mem_of_find?_eq_some hq, ?_⟩
    have := List.find?_some hq
    simpa using this

/-- Witness for C4: both branches at concrete inputs — with every path
existing, `' /a ,b '` normalizes to `'/a,b'`; with nothing existing,
`path` raises PathNotFound on the first stripped sub-path. -/
theorem path_types_parse_time_witness :
    unextpath " /a ,b " = "/a,b" ∧
    path (fun _ => true) " /a ,b " = Except.ok "/a,b" ∧
    path (fun _ => false) " /a ,b " =
      Except.error (ArgTypeError.pathNotFound "/a") := by
  refine ⟨(path_types_parse_time (fun _ => true) " /a ,b ").1, ?_, ?_⟩
  · exact ((path_types_parse_time (fun _ => true) " /a ,b ").2.1
      (by decide)).trans (by rfl)
  · exact (((path_types_parse_time (fun _ => false) " /a ,b ").2.2 "/a")
      (by rfl)).1

/-- C7.  `load_output_meta` after `save_output_meta` when the input
directory equals the output directory returns `OUTPUT_META_DICT`: the
write goes to `<outputdir>/output.meta.json` and the read comes from
`<inputdir>/output.meta.json`. -/
theorem output_meta_round_trip (cfg : AppCfg) (ns : Namespace) (fsys : FS)
    (h : nsGetStr ns "inputdir" = nsGetStr ns "outputdir") :
    load_output_meta ns (save_output_meta cfg ns fsys) =
      Except.ok cfg.OUTPUT_META_DICT := by
  simp only [load_output_meta, save_output_meta, readJsonFile, writeJsonFile,
             h, List.lookup, beq_self_eq_true, if_pos]
  rfl

/-- A successful validation implies the three mandatory keys were present
and were what the validation returned. -/
theorem validate_ok_inv {kw : Kwargs} {name : String} {optional : Bool}
    {param_type : PyType}
    (h : validate_argument_options kw =
      Except.ok (name, optional, param_type)) :
    kw.dest = some name ∧ kw.optional = some optional ∧
    kw.type = some param_type := by
  unfold validate_argument_options at h
  cases hd : kw.dest with
  | none => rw [hd] at h; cases h
  | some n =>
    rw [hd] at h
    cases ho : kw.optional with
    | none => rw [ho] at h; cases h
    | some ob =>
      rw [ho] at h
      cases ht : kw.type with
      | none => rw [ht] at h; cases h
      | some tt =>
        rw [ht] at h
        dsimp only at h
        split_ifs at h
        simp_all

/-- Inversion of a successful `add_argument` call: the keys that were
present, the derived action and `required` value, and the exact parameter
record appended to the registry. -/
theorem add_argument_ok_inv {params : List Param} {usedFlags : List String}
    {arg0 : String} {argRest : List String} {kw : Kwargs} {ps : List Param}
    {pa : ArgparseArg}
    (hact : kw.action ≠ some "help")
    (h : add_argument params usedFlags arg0 argRest kw = Except.ok (ps, pa)) :
    ∃ name optional param_type,
      kw.dest = some name ∧ kw.optional = some optional ∧
      kw.type = some param_type ∧
      pa.action = (if param_type = PyType.bool then
          (if (kw.default.getD PyVal.vNone).truthy then "store_false"
           else "store_true")
        else "store") ∧
      pa.required = kw.required.getD (!optional) ∧
      ps = params ++
        [{ name := name, type := param_type.name, optional := optional,
           flag := flagOf arg0 argRest,
           short_flag := shortFlagOf arg0 argRest,
           action := (if param_type = PyType.bool then
               (if (kw.default.getD PyVal.vNone).truthy then "store_false"
                else "store_true") else "store"),
           help := kw.help.getD "", default := kw.default.getD PyVal.vNone,
           ui_exposed := kw.ui_exposed.getD true }] := by
  unfold add_argument at h
  rw [if_neg hact] at h
  cases hv : validate_argument_options kw with
  | error e => rw [hv] at h; cases h
  | ok tri =>
    obtain ⟨n, ob, tt⟩ := tri
    obtain ⟨hd, ho, ht⟩ := validate_ok_inv hv
    rw [hv] at h
    dsimp only at h
    split at h
    · exact Except.noConfusion h
    · injection h with h1
      injection h1 with hps hpa
      refine ⟨n, ob, tt, hd, ho, ht, by rw [← hpa], ?_, hps.symm⟩
      rw [← hpa]
      cases kw.required <;> rfl

/-- C8.  Registering with `optional=true` and no default, or an explicit
`None` default, fails with the InvalidDefaultError-class error (a
`KeyError` when the key is absent, a `ValueError` when it is `None`); the
failure precedes the registry append, so nothing is registered.  The
hypotheses state that the checks the source performs first (present keys,
supported non-path type, consistent `required`) pass. -/
theorem optional_requires_default
    (params : List Param) (usedFlags : List String) (arg0 : String)
    (argRest : List String) (kw : Kwargs) (n : String) (t : PyType)
    (hact : kw.action ≠ some "help")
    (hdest : kw.dest = some n) (htype : kw.type = some t)
    (hsupp : t = .str ∨ t = .int ∨ t = .float ∨ t = .bool)
    (hopt : kw.optional = some true)
    (hreq : kw.required ≠ some true) :
    (kw.default = none →
      add_argument params usedFlags arg0 argRest kw =
        Except.error (RegError.missingDefault n)) ∧
    (kw.default = some PyVal.vNone →
      add_argument params usedFlags arg0 argRest kw =
        Except.error (RegError.noneDefault n)) ∧
    (RegError.missingDefault n).isInvalidDefault = true ∧
    (RegError.noneDefault n).isInvalidDefault = true := by
  have hmem : ¬(t ∉ [PyType.str, PyType.int, PyType.float, PyType.bool,
                     PyType.path, PyType.unextpath]) := by
    rcases hsupp with h | h | h | h <;> subst h <;> simp
  refine ⟨?_, ?_, rfl, rfl⟩
  · intro hdef
    have hv : validate_argument_options kw =
        Except.error (.missingDefault n) := by
      simp only [validate_argument_options, hdest, hopt, htype, hdef]
      rw [if_neg hreq, if_neg hmem]
      simp
      rcases hsupp with h | h | h | h <;> subst h <;> simp
    simp only [add_argument, if_neg hact, hv]
  · intro hdef
    have hv : validate_argument_options kw =
        Except.error (.noneDefault n) := by
      simp only [validate_argument_options, hdest, hopt, htype, hdef]
      rw [if_neg hreq, if_neg hmem]
      simp
      rcases hsupp with h | h | h | h <;> subst h <;> simp
    simp only [add_argument, if_neg hact, hv]

/-- Witness for C8: both failure modes at concrete registrations of an
optional string parameter `--dir`. -/
theorem optional_requires_default_witness :
    add_argument [] [] "--dir" []
        { dest := some "dir", type := some .str, optional := some true } =
      Except.error (RegError.missingDefault "dir") ∧
    add_argument [] [] "--dir" []
        { dest := some "dir", type := some .str, optional := some true,
          default := some .vNone } =
      Except.error (RegError.noneDefault "dir") :=
  ⟨(optional_requires_default [] [] "--dir" []
      { dest := some "dir", type := some .str, optional := some true }
      "dir" .str (by simp) rfl rfl (Or.inl rfl) rfl (by simp)).1 rfl,
   (optional_requires_default [] [] "--dir" []
      { dest := some "dir", type := some .str, optional := some true,
        default := some .vNone }
      "dir" .str (by simp) rfl rfl (Or.inl rfl) rfl (by simp)).2.1 rfl⟩

/-- C9.  Registering with `ui_exposed=false` and `optional=false` fails
with the InvisibleMandatoryError-class error (a mandatory parameter cannot
be hidden from the UI); the failure precedes the registry append.  The
hypotheses state that the checks the source performs first pass. -/
theorem invisible_mandatory_rejected
    (params : List Param) (usedFlags : List String) (arg0 : String)
    (argRest : List String) (kw : Kwargs) (n : String) (t : PyType)
    (hact : kw.action ≠ some "help")
    (hdest : kw.dest = some n) (htype : kw.type = some t)
    (hsupp : t ∈ [PyType.str, PyType.int, PyType.float, PyType.bool,
                  PyType.path, PyType.unextpath])
    (hopt : kw.optional = some false)
    (hui : kw.ui_exposed = some false)
    (hreq : kw.required ≠ some false) :
    add_argument params usedFlags arg0 argRest kw =
      Except.error (RegError.invisibleMandatory n) := by
  have hv : validate_argument_options kw =
      Except.error (.invisibleMandatory n) := by
    simp only [validate_argument_options, hdest, hopt, htype, hui]
    rw [if_neg hreq, if_neg (not_not_intro hsupp)]
    simp
  simp only [add_argument, if_neg hact, hv]

/-- Witness for C9: a concrete hidden mandatory registration fails. -/
theorem invisible_mandatory_rejected_witness :
    add_argument [] [] "--dir" []
        { dest := some "dir", type := some .str, optional := some false,
          ui_exposed := some false } =
      Except.error (RegError.invisibleMandatory "dir") :=
  invisible_mandatory_rejected [] [] "--dir" []
    { dest := some "dir", type := some .str, optional := some false,
      ui_exposed := some false }
    "dir" .str (by simp) rfl rfl (by simp) rfl rfl (by simp)

/-- C10.  The parser-native `required` and the custom `optional` must be
logical negations of each other: supplying `required` equal to `optional`
fails with the `KeyError`-class contradiction error, and omitting
`required` derives it as the negation of `optional` in the configuration
handed to the underlying parser. -/
theorem required_optional_agreement
    (params : List Param) (usedFlags : List String) (arg0 : String)
    (argRest : List String) (kw : Kwargs) (n : String) (b : Bool)
    (hact : kw.action ≠ some "help")
    (hdest : kw.dest = some n) (hopt : kw.optional = some b)
    (htype : kw.type.isSome = true) :
    (kw.required = some b →
      add_argument params usedFlags arg0 argRest kw =
        Except.error (RegError.contradictRequired n)) ∧
    (kw.required = none →
      ∀ ps pa, add_argument params usedFlags arg0 argRest kw =
          Except.ok (ps, pa) → pa.required = !b) := by
  constructor
  · intro hreq
    obtain ⟨t, ht⟩ := Option.isSome_iff_exists.mp htype
    have hv : validate_argument_options kw =
        Except.error (.contradictRequired n) := by
      unfold validate_argument_options
      rw [hdest, hopt, ht]
      dsimp only
      rw [if_pos hreq]
    simp only [add_argument, if_neg hact, hv]
  · intro hreq ps pa h
    obtain ⟨n', ob, tt, hd', ho', ht', hA, hR, hps⟩ :=
      add_argument_ok_inv hact h
    have hob : ob = b := Option.some.inj (ho'.symm.trans hopt)
    subst hob
    rw [hR, hreq]
    rfl

/-- Witness for C10: a contradicting `required=True, optional=True`
registration fails, and with `required` omitted the parser receives
`required = not optional`. -/
theorem required_optional_agreement_witness :
    add_argument [] [] "--dir" []
        { dest := some "dir", type := some .str, optional := some true,
          required := some true, default := some (.vStr "x") } =
      Except.error (RegError.contradictRequired "dir") ∧
    (∀ ps pa, add_argument [] [] "--dir" []
        { dest := some "dir", type := some .str, optional := some true,
          default := some (.vStr "x") } = Except.ok (ps, pa) →
      pa.required = !true) :=
  ⟨(required_optional_agreement [] [] "--dir" []
      { dest := some "dir", type := some .str, optional := some true,
        required := some true, default := some (.vStr "x") }
      "dir" true (by simp) rfl rfl rfl).1 rfl,
   (required_optional_agreement [] [] "--dir" []
      { dest := some "dir", type := some .str, optional := some true,
        default := some (.vStr "x") }
      "dir" true (by simp) rfl rfl rfl).2 rfl⟩

/-- C3.  For a boolean-typed parameter with a boolean declared default,
the derived action is the toggle whose polarity is the negation of the
default: the flag present yields `not default`, the flag absent yields
`default` (via argparse's `store_true`/`store_false` semantics); any
non-boolean type derives the plain `store` action.  In particular with
default `false` the action is `store_true`: present gives `true`, absent
gives `false`. -/
theorem bool_parameters_toggle
    (params : List Param) (usedFlags : List String) (arg0 : String)
    (argRest : List String) (kw : Kwargs) (ps : List Param)
    (pa : ArgparseArg)
    (hact : kw.action ≠ some "help")
    (h : add_argument params usedFlags arg0 argRest kw =
      Except.ok (ps, pa)) :
    (∀ b : Bool, kw.type = some PyType.bool →
      kw.default = some (PyVal.vBool b) →
      pa.action = (if b then "store_false" else "store_true") ∧
      argparseToggleValue pa.action true = !b ∧
      argparseToggleValue pa.action false = b) ∧
    (∀ t : PyType, kw.type = some t → t ≠ PyType.bool →
      pa.action = "store") := by
  obtain ⟨n, ob, tt, hd, ho, ht, haction, hreq, hps⟩ :=
    add_argument_ok_inv hact h
  constructor
  · intro b hb hdef
    have htt : tt = PyType.bool := Option.some.inj (ht.symm.trans hb)
    subst htt
    rw [hdef] at haction
    simp only [if_pos rfl, Option.getD] at haction
    cases b with
    | false =>
      simp only [PyVal.truthy, Bool.false_eq_true, if_false] at haction
      simp [haction, argparseToggleValue]
    | true =>
      simp only [PyVal.truthy, if_true] at haction
      simp [haction, argparseToggleValue]
  · intro t htk hne
    have htt : tt = t := Option.some.inj (ht.symm.trans htk)
    subst htt
    rw [if_neg hne] at haction
    exact haction

/-- The keyword arguments of a boolean `--flag` with default `false`. -/
def flagKwargs : Kwargs :=
  { dest := some "flag", type := some .bool, optional := some true,
    default := some (.vBool false) }

/-- The parameter record `flagKwargs` registers. -/
def flagParam : Param :=
  { name := "flag", type := "bool", optional := true, flag := "--flag",
    short_flag := "--flag", action := "store_true", help := "",
    default := .vBool false, ui_exposed := true }

/-- The parser configuration `flagKwargs` produces (argparse receives no
`type` and no `default` for booleans). -/
def flagArgparse : ArgparseArg :=
  { optionStrings := ["--flag"], dest := "flag", action := "store_true",
    required := false, type := none, default := none }

/-- The keyword arguments of a string parameter, for the non-boolean part
of the C3 witness. -/
def strKwargs : Kwargs :=
  { dest := some "d", type := some .str, optional := some true,
    default := some (.vStr "./") }

/-- The parameter record `strKwargs` registers. -/
def strParam : Param :=
  { name := "d", type := "str", optional := true, flag := "--dirp",
    short_flag := "--dirp", action := "store", help := "",
    default := .vStr "./", ui_exposed := true }

/-- The parser configuration `strKwargs` produces. -/
def strArgparse : ArgparseArg :=
  { optionStrings := ["--dirp"], dest := "d", action := "store",
    required := false, type := some .str, default := some (.vStr "./") }

/-- Witness for C3: the test scenario — a boolean `--flag` with default
`false` derives `store_true` (present ⇒ `true`, absent ⇒ `false`), and a
string parameter derives `store`. -/
theorem bool_parameters_toggle_witness :
    (flagArgparse.action = (if false then "store_false" else "store_true") ∧
     argparseToggleValue flagArgparse.action true = !false ∧
     argparseToggleValue flagArgparse.action false = false) ∧
    strArgparse.action = "store" :=
  ⟨(bool_parameters_toggle [] [] "--flag" [] flagKwargs [flagParam]
      flagArgparse (by simp [flagKwargs]) rfl).1 false rfl rfl,
   (bool_parameters_toggle [] [] "--dirp" [] strKwargs [strParam]
      strArgparse (by simp [strKwargs]) rfl).2 .str rfl (by simp)⟩

/-- C2 (amended).  Registration success is independent of the registry
contents: `validate_argument_options` never consults `_parameters`, so a
call that succeeds on an empty registry succeeds on any registry — it is
simply appended.  Duplicate flag strings are rejected by the underlying
parser, but duplicate parameter names are not checked anywhere. -/
theorem registration_independent_of_registry
    (params : List Param) (usedFlags : List String) (arg0 : String)
    (argRest : List String) (kw : Kwargs) :
    add_argument params usedFlags arg0 argRest kw =
      Except.map (fun st => (params ++ st.1, st.2))
        (add_argument [] usedFlags arg0 argRest kw) := by
  unfold add_argument
  split
  · simp [Except.map]
  · cases hv : validate_argument_options kw with
    | error e => rfl
    | ok tri =>
      obtain ⟨n, ob, tt⟩ := tri
      dsimp only
      split
      · rfl
      · simp [Except.map]

/-- One registration of dest `x` under the fresh flag `--xa`. -/
def dupRegA : RegCall :=
  { arg0 := "--xa",
    kw := { dest := some "x", type := some .str, optional := some true,
            default := some (.vStr "1") } }

/-- A second registration of the same dest `x` under another fresh flag. -/
def dupRegB : RegCall :=
  { arg0 := "--xb",
    kw := { dest := some "x", type := some .str, optional := some true,
            default := some (.vStr "2") } }

/-- The parameter `dupRegA` registers. -/
def dupParamA : Param :=
  { name := "x", type := "str", optional := true, flag := "--xa",
    short_flag := "--xa", action := "store", help := "",
    default := .vStr "1", ui_exposed := true }

/-- The parameter `dupRegB` registers. -/
def dupParamB : Param :=
  { name := "x", type := "str", optional := true, flag := "--xb",
    short_flag := "--xb", action := "store", help := "",
    default := .vStr "2", ui_exposed := true }

/-- Counterexample to C2 as stated: starting from the built-in flags, two
successive registrations with the same name `x` (distinct flags) both
succeed, and the registry then holds two parameters with equal names. -/
theorem duplicate_name_registration_succeeds :
    runRegCalls ([], builtinFlags) [dupRegA, dupRegB] =
      Except.ok ([dupParamA, dupParamB],
        builtinFlags ++ ["--xa"] ++ ["--xb"]) ∧
    dupParamA.name = dupParamB.name :=
  ⟨rfl, rfl⟩

/-- C6.  The descriptor builder is a pure function of the class fields
and the registry (in this embedding, definitionally: equal inputs give
equal descriptors), its `parameters` field is the registry itself, and
every registered parameter record carries `flag`, `short_flag`, the type
name as a string, `optional`, `default`, `help` and `ui_exposed` exactly
as registered. -/
theorem descriptor_pure_and_complete
    (cfg : AppCfg) (params : List Param) (usedFlags : List String)
    (arg0 : String) (argRest : List String) (kw : Kwargs)
    (ps : List Param) (pa : ArgparseArg)
    (hact : kw.action ≠ some "help")
    (h : add_argument params usedFlags arg0 argRest kw =
      Except.ok (ps, pa)) :
    (get_json_representation cfg ps).parameters = ps ∧
    (∀ qs : List Param, qs = ps →
      get_json_representation cfg qs = get_json_representation cfg ps) ∧
    ps = params ++
      [{ name := kw.dest.getD "",
         type := (kw.type.getD (PyType.other "")).name,
         optional := kw.optional.getD false,
         flag := flagOf arg0 argRest,
         short_flag := shortFlagOf arg0 argRest,
         action := (if kw.type.getD (PyType.other "") = PyType.bool then
             (if (kw.default.getD PyVal.vNone).truthy then "store_false"
              else "store_true") else "store"),
         help := kw.help.getD "", default := kw.default.getD PyVal.vNone,
         ui_exposed := kw.ui_exposed.getD true }] := by
  obtain ⟨n, ob, tt, hd, ho, ht, hA, hR, hps⟩ := add_argument_ok_inv hact h
  refine ⟨rfl, fun qs hq => by rw [hq], ?_⟩
  rw [hps]
  simp [hd, ho, ht]

/-- The keyword arguments of the witness registration for C6. -/
def dirKwargs : Kwargs :=
  { dest := some "dir", type := some .str, optional := some true,
    default := some (.vStr "./"), help := some "look up directory" }

/-- The parameter record the witness registration for C6 appends. -/
def dirParam : Param :=
  { name := "dir", type := "str", optional := true, flag := "--dir",
    short_flag := "-d", action := "store", help := "look up directory",
    default := .vStr "./", ui_exposed := true }

/-- The parser configuration the witness registration for C6 produces. -/
def dirArgparse : ArgparseArg :=
  { optionStrings := ["--dir", "-d"], dest := "dir", action := "store",
    required := false, type := some .str, default := some (.vStr "./") }

/-- Witness for C6: a concrete registration's descriptor entry carries
all seven fields as registered. -/
theorem descriptor_pure_and_complete_witness :
    (get_json_representation {} [dirParam]).parameters = [dirParam] ∧
    [dirParam] = [] ++ [dirParam] :=
  ⟨(descriptor_pure_and_complete {} [] [] "--dir" ["-d"] dirKwargs
      [dirParam] dirArgparse (by simp [dirKwargs]) rfl).1,
   (descriptor_pure_and_complete {} [] [] "--dir" ["-d"] dirKwargs
      [dirParam] dirArgparse (by simp [dirKwargs]) rfl).2.2⟩

/-- Witness for C7: the round trip at a concrete plugin and directory. -/
theorem output_meta_round_trip_witness :
    load_output_meta [("inputdir", .vStr "/d"), ("outputdir", .vStr "/d")]
        (save_output_meta { OUTPUT_META_DICT := [("k", .vStr "v")] }
          [("inputdir", .vStr "/d"), ("outputdir", .vStr "/d")] emptyFs) =
      Except.ok [("k", .vStr "v")] :=
  output_meta_round_trip { OUTPUT_META_DICT := [("k", .vStr "v")] }
    [("inputdir", .vStr "/d"), ("outputdir", .vStr "/d")] emptyFs rfl

/-- A successful `add_argument` call only ever appends to the registry. -/
theorem add_argument_appends {params : List Param} {usedFlags : List String}
    {arg0 : String} {argRest : List String} {kw : Kwargs} {ps : List Param}
    {pa : ArgparseArg}
    (h : add_argument params usedFlags arg0 argRest kw =
      Except.ok (ps, pa)) :
    ∃ tail, ps = params ++ tail := by
  by_cases hact : kw.action = some "help"
  · unfold add_argument at h
    rw [if_pos hact] at h
    injection h with h1
    injection h1 with hps hpa
    exact ⟨[], by rw [← hps]; simp⟩
  · obtain ⟨n, ob, tt, _, _, _, _, _, hps⟩ := add_argument_ok_inv hact h
    exact ⟨_, hps⟩

/-- A successful sequence of registrations only ever extends the
registry it started from. -/
theorem runRegCalls_extends (calls : List RegCall) :
    ∀ st st' : List Param × List String,
      runRegCalls st calls = Except.ok st' → ∃ tail, st'.1 = st.1 ++ tail := by
  induction calls with
  | nil =>
    intro st st' h
    injection h with h1
    exact ⟨[], by rw [← h1]; simp⟩
  | cons c cs ih =>
    intro st st' h
    unfold runRegCalls at h
    cases ha : add_argument st.1 st.2 c.arg0 c.argRest c.kw with
    | error e => rw [ha] at h; cases h
    | ok pr =>
      rw [ha] at h
      obtain ⟨pres, pa⟩ := pr
      obtain ⟨t1, ht1⟩ := add_argument_appends ha
      obtain ⟨t2, ht2⟩ := ih _ _ h
      refine ⟨t1 ++ t2, ?_⟩
      rw [ht2]
      dsimp only
      rw [ht1, List.append_assoc]

/-- The first extra parameter `__init__` registers for a 'ts' plugin. -/
def pluginInstancesParam : Param :=
  { name := "plugininstances", type := "str", optional := true,
    flag := "--plugininstances", short_flag := "--plugininstances",
    action := "store",
    help := "string representing a comma-separated list of plugin " ++
            "instance ids",
    default := .vStr "", ui_exposed := true }

/-- The second extra parameter `__init__` registers for a 'ts' plugin. -/
def filterParam : Param :=
  { name := "filter", type := "str", optional := true, flag := "--filter",
    short_flag := "-f", action := "store",
    help := "regular expression to filter the plugin instances' " ++
            "output path",
    default := .vStr "", ui_exposed := true }

/-- The third extra parameter `__init__` registers for a 'ts' plugin. -/
def extractPathsParam : Param :=
  { name := "extractpaths", type := "bool", optional := true,
    flag := "--extractpaths", short_flag := "-e", action := "store_true",
    help := "if set then the matched paths from the plugin instances' " ++
            "output path are sent to the remote compute",
    default := .vBool false, ui_exposed := true }

/-- C5.  For a 'ts' plugin, the controller registers the three
topological parameters before `define_parameters` runs, so whatever the
plugin itself registers, the first three registry entries — registration
order being presentation order — are the upstream-instances list, the
filter expression and the extract-paths toggle. -/
theorem ts_parameters_first (cfg : AppCfg) (calls : List RegCall)
    (ps : List Param) (hts : cfg.TYPE = "ts")
    (h : initParameters cfg calls = Except.ok ps) :
    ps.take 3 = [pluginInstancesParam, filterParam, extractPathsParam] ∧
    3 ≤ ps.length := by
  unfold initParameters at h
  rw [hts, if_pos rfl] at h
  have h0 : runRegCalls ([], builtinFlags)
      [tsPluginInstancesCall, tsFilterCall, tsExtractPathsCall] =
      Except.ok ([pluginInstancesParam, filterParam, extractPathsParam],
        builtinFlags ++ ["--plugininstances"] ++ ["-f", "--filter"] ++
          ["-e", "--extractpaths"]) := rfl
  rw [h0] at h
  dsimp only at h
  cases hr : runRegCalls ([pluginInstancesParam, filterParam,
      extractPathsParam],
      builtinFlags ++ ["--plugininstances"] ++ ["-f", "--filter"] ++
        ["-e", "--extractpaths"]) calls with
  | error e => rw [hr] at h; cases h
  | ok st' =>
    rw [hr] at h
    injection h with h1
    obtain ⟨tail, htail⟩ := runRegCalls_extends calls _ _ hr
    rw [← h1, htail]
    dsimp only
    constructor
    · rw [show (3 : ℕ) =
          [pluginInstancesParam, filterParam, extractPathsParam].length
          from rfl]
      exact List.take_left _ _
    · simp

/-- Witness for C5: a 'ts' plugin whose `define_parameters` registers
nothing has exactly the three topological parameters, in order. -/
theorem ts_parameters_first_witness :
    [pluginInstancesParam, filterParam, extractPathsParam].take 3 =
      [pluginInstancesParam, filterParam, extractPathsParam] ∧
    3 ≤ [pluginInstancesParam, filterParam, extractPathsParam].length :=
  ts_parameters_first { TYPE := "ts" } []
    [pluginInstancesParam, filterParam, extractPathsParam] rfl rfl

end ChrisApp
